import Mathlib

/-!
Verification of the generic CRTP commander decoder
(`src/modules/src/crtp_commander_generic.c` of the crazyflie-firmware fork).

Machine floats are represented by their bit patterns (`Nat` below `2^32` for
single precision, below `2^16` for half precision): every operation the decoder
performs on float values is a pure bit-level copy or the binary16 → binary32
widening, so bit patterns model the C behaviour exactly. Bytes are `Nat`
values; a packet is the list of its bytes. A firmware `ASSERT` halts the
system, so functions that can hit an assertion return `Option`, with `none`
standing for the fatal assertion path.
-/

namespace CrtpCommanderGeneric

/-- Modelled from the spec: the per-axis control-mode enumeration
(`stab_mode_t`, declared in a header that is not part of this snapshot);
§3 of the spec gives the vocabulary {disabled, abs-position, velocity},
zero-initialised to `modeDisable`. -/
inductive stab_mode_t where
  | modeDisable : stab_mode_t
  | modeAbs : stab_mode_t
  | modeVelocity : stab_mode_t
deriving DecidableEq, Repr

export stab_mode_t (modeDisable modeAbs modeVelocity)

/-- Modelled from the spec: the per-axis mode block of `setpoint_t`
(`setpoint->mode` in the C code). -/
structure mode_t where
  x : stab_mode_t
  y : stab_mode_t
  z : stab_mode_t
  roll : stab_mode_t
  pitch : stab_mode_t
  yaw : stab_mode_t
deriving DecidableEq, Repr

/-- A 3-vector of single-precision bit patterns (`velocity` field). -/
structure vec3_t where
  x : Nat
  y : Nat
  z : Nat
deriving DecidableEq, Repr

/-- Attitude-rate block; only `yaw` is written by this module. -/
structure attitude_t where
  roll : Nat
  pitch : Nat
  yaw : Nat
deriving DecidableEq, Repr

/-- Modelled from the spec: the `setpoint_t` output record (§3), restricted to
the fields this translation unit reads or writes. `x0 x1 x2` model the C array
`setpoint->x[0..2]`, similarly for `y`, `z` and `yaw`; `xmode ymode zmode` are
the legacy 3-bit numeric mirrors; `setEmergency`/`resetEmergency` are the
emergency flag bits. Numeric fields hold float bit patterns or small bit-field
values, all as `Nat`. -/
structure setpoint_t where
  mode : mode_t
  velocity : vec3_t
  attitudeRate : attitude_t
  xmode : Nat
  ymode : Nat
  zmode : Nat
  x0 : Nat
  x1 : Nat
  x2 : Nat
  y0 : Nat
  y1 : Nat
  y2 : Nat
  z0 : Nat
  z1 : Nat
  z2 : Nat
  yaw0 : Nat
  yaw1 : Nat
  setEmergency : Nat
  resetEmergency : Nat
deriving DecidableEq, Repr

/-- The all-zero `setpoint_t` produced by `memset(setpoint, 0, sizeof(setpoint_t))`:
every numeric field 0, every mode `modeDisable` (the zero enumerator). -/
def neutralSetpoint : setpoint_t :=
  { mode := ⟨modeDisable, modeDisable, modeDisable, modeDisable, modeDisable, modeDisable⟩
    velocity := ⟨0, 0, 0⟩
    attitudeRate := ⟨0, 0, 0⟩
    xmode := 0, ymode := 0, zmode := 0
    x0 := 0, x1 := 0, x2 := 0
    y0 := 0, y1 := 0, y2 := 0
    z0 := 0, z1 := 0, z2 := 0
    yaw0 := 0, yaw1 := 0
    setEmergency := 0, resetEmergency := 0 }

/-- The process-wide diagnostic variables of the translation unit:
`debugCount`, `testValueX`, `testValueY`, `testValueZ` (lines 60-63). -/
structure DebugState where
  debugCount : Nat
  testValueX : Nat
  testValueY : Nat
  testValueZ : Nat
deriving DecidableEq, Repr

/-- Byte at offset `i` of a payload; the C decoders only read offsets that the
length assertion has already shown to be in range, so the default never shows
through in any reachable reduction. -/
def byteAt (data : List Nat) (i : Nat) : Nat :=
  data.getD i 0

/-- A little-endian 16-bit load at byte offset `i` (packed `uint16_t`). -/
def readLE16 (data : List Nat) (i : Nat) : Nat :=
  byteAt data i + 2 ^ 8 * byteAt data (i + 1)

/-- A little-endian 32-bit load at byte offset `i` (packed `float`). -/
def readLE32 (data : List Nat) (i : Nat) : Nat :=
  byteAt data i + 2 ^ 8 * byteAt data (i + 1) +
    2 ^ 16 * byteAt data (i + 2) + 2 ^ 24 * byteAt data (i + 3)

/-- Round-to-nearest-even of `x / 2^k` on naturals (the IEEE default rounding
used when narrowing a significand by `k` bits). -/
def rne (x k : Nat) : Nat :=
  let q := x / 2 ^ k
  let r := x % 2 ^ k
  if 2 * r < 2 ^ k then q
  else if 2 ^ k < 2 * r then q + 1
  else if q % 2 = 0 then q else q + 1

/-- Modelled from the spec: `half2single` is defined in `num.c`, which is not
part of this snapshot; §4.5 specifies it as the standard IEEE-754 binary16 →
binary32 widening (subnormals, infinities and NaN payloads included). Input is
a 16-bit pattern, output the corresponding 32-bit pattern; the widening is
exact, so no rounding occurs. -/
def half2single (h : Nat) : Nat :=
  let s := h / 2 ^ 15 % 2
  let e := h / 2 ^ 10 % 32
  let m := h % 2 ^ 10
  if e = 31 then
    s * 2 ^ 31 + 255 * 2 ^ 23 + m * 2 ^ 13
  else if e ≠ 0 then
    s * 2 ^ 31 + (e + 112) * 2 ^ 23 + m * 2 ^ 13
  else if m ≠ 0 then
    let k := Nat.log2 m
    s * 2 ^ 31 + (k + 103) * 2 ^ 23 + (m - 2 ^ k) * 2 ^ (23 - k)
  else
    s * 2 ^ 31

/-- Modelled from the spec: the inverse direction of the half-precision codec
(`single2half` of `num.c`, the encoder used by the sender side), per IEEE-754
binary32 → binary16 narrowing with round-to-nearest-even, needed to state the
encode-then-decode round trip of §8. -/
def single2half (f : Nat) : Nat :=
  let s := f / 2 ^ 31 % 2
  let e := f / 2 ^ 23 % 256
  let m := f % 2 ^ 23
  if e = 255 then
    if m = 0 then s * 2 ^ 15 + 31 * 2 ^ 10
    else s * 2 ^ 15 + 31 * 2 ^ 10 + (if m / 2 ^ 13 = 0 then 2 ^ 9 else m / 2 ^ 13)
  else if 143 ≤ e then
    s * 2 ^ 15 + 31 * 2 ^ 10
  else if 113 ≤ e then
    s * 2 ^ 15 + (e - 113) * 2 ^ 10 + rne (2 ^ 23 + m) 13
  else if e = 0 then
    s * 2 ^ 15
  else
    s * 2 ^ 15 + rne (2 ^ 23 + m) (126 - e)

/-- A decoder takes the (already neutralised) setpoint, the diagnostic state
and the payload, and either fills the setpoint or hits a fatal assertion
(`none`). This is `packetDecoder_t` with the globals made explicit. -/
def PacketDecoder : Type :=
  setpoint_t → DebugState → List Nat → Option (setpoint_t × DebugState)

/-- `stopDecoder` (lines 83-86): keeps the setpoint at 0 and ignores the
payload entirely, whatever its length. -/
def stopDecoder : PacketDecoder :=
  fun sp st _ => some (sp, st)

/-- `velocityDecoder` (lines 97-122): asserts a 16-byte payload
(`sizeof(struct velocityPacket_s)`), then reads the four packed little-endian
single-precision fields `vx, vy, vz, yawrate` and fills the setpoint. -/
def velocityDecoder : PacketDecoder :=
  fun sp st data =>
    if data.length = 16 then
      let vx := readLE32 data 0
      let vy := readLE32 data 4
      let vz := readLE32 data 8
      let yawrate := readLE32 data 12
      some ({ sp with
              mode := { sp.mode with
                        x := modeVelocity, y := modeVelocity
                        z := modeVelocity, yaw := modeVelocity }
              velocity := ⟨vx, vy, vz⟩
              xmode := 2, ymode := 2, zmode := 2
              x1 := vx, y1 := vy, z1 := vz
              attitudeRate := { sp.attitudeRate with yaw := yawrate } }, st)
    else none

/-- The bit-field extractions from the packed 2-byte
`fullControlPacketHeader_t` (lines 128-136); the C compiler for this target
allocates bit-fields from the least significant bit, so
`packetHasExternalReference` is bit 0, `setEmergency` bit 1, `resetEmergency`
bit 2, `controlModeX` bits 3-5, `controlModeY` bits 6-8, `controlModeZ`
bits 9-11, with 4 padding bits on top. -/
def headerSetEmergency (h : Nat) : Nat := h / 2 % 2

def headerResetEmergency (h : Nat) : Nat := h / 4 % 2

def headerControlModeX (h : Nat) : Nat := h / 8 % 8

def headerControlModeY (h : Nat) : Nat := h / 64 % 8

def headerControlModeZ (h : Nat) : Nat := h / 512 % 8

/-- `fullControlDecoder` (lines 146-167): asserts a 24-byte payload
(`sizeof(fullControlPacket_t)` = 2-byte packed header + 11 packed `uint16_t`:
`x[3], y[3], z[3], yaw[2]`), copies the legacy mode codes and emergency flag
bits out of the header, widens each half-precision body value, and updates the
diagnostics (`testValueX/Y/Z` from the just-written `x[0], y[0], z[0]`,
`debugCount` incremented). -/
def fullControlDecoder : PacketDecoder :=
  fun sp st data =>
    if data.length = 24 then
      let header := readLE16 data 0
      let sp' := { sp with
                   xmode := headerControlModeX header
                   ymode := headerControlModeY header
                   zmode := headerControlModeZ header
                   setEmergency := headerSetEmergency header
                   resetEmergency := headerResetEmergency header
                   x0 := half2single (readLE16 data 2)
                   x1 := half2single (readLE16 data 4)
                   x2 := half2single (readLE16 data 6)
                   y0 := half2single (readLE16 data 8)
                   y1 := half2single (readLE16 data 10)
                   y2 := half2single (readLE16 data 12)
                   z0 := half2single (readLE16 data 14)
                   z1 := half2single (readLE16 data 16)
                   z2 := half2single (readLE16 data 18)
                   yaw0 := half2single (readLE16 data 20)
                   yaw1 := half2single (readLE16 data 22) }
      some (sp', { debugCount := st.debugCount + 1
                   testValueX := sp'.x0
                   testValueY := sp'.y0
                   testValueZ := sp'.z0 })
    else none

/-- The `packetDecoders` dispatch array (lines 170-174): designated
initialisers at indices 0, 1 and 3; index 2 (`rateType`) is a NULL entry. -/
def packetDecoders : Nat → Option PacketDecoder
  | 0 => some stopDecoder
  | 1 => some velocityDecoder
  | 3 => some fullControlDecoder
  | _ => none

/-- `nTypes = sizeof(packetDecoders)/sizeof(packetDecoders[0])`: the array's
highest designated index is 3, so it has 4 entries. -/
def nTypes : Nat := 4

/-- The dispatch step of `crtpCommanderGenericDecodeSetpoint` after the size
assertion has passed (lines 183-193): neutralise the setpoint, look the type
up in the table, fall back to the neutral setpoint when the type is out of
range or unregistered. -/
def decodeDispatch (st : DebugState) (type : Nat) (payload : List Nat) :
    Option (setpoint_t × DebugState) :=
  if type < nTypes then
    match packetDecoders type with
    | some d => d neutralSetpoint st payload
    | none => some (neutralSetpoint, st)
  else some (neutralSetpoint, st)

/-- `crtpCommanderGenericDecodeSetpoint` (lines 177-194): `ASSERT(pk->size > 0)`
is the `none` branch on the empty packet; otherwise byte 0 is the type tag and
the rest of the packet is the payload handed to the dispatch step. -/
def crtpCommanderGenericDecodeSetpoint (st : DebugState) (pk : List Nat) :
    Option (setpoint_t × DebugState) :=
  match pk with
  | [] => none
  | type :: payload => decodeDispatch st type payload

/-! ## Helper lemmas for the half-precision codec -/

lemma half2single_eval (s e m : Nat) (hs : s < 2) (he : e < 32) (hm : m < 1024) :
    half2single (s * 2 ^ 15 + e * 2 ^ 10 + m) =
      if e = 31 then s * 2 ^ 31 + 255 * 2 ^ 23 + m * 2 ^ 13
      else if e ≠ 0 then s * 2 ^ 31 + (e + 112) * 2 ^ 23 + m * 2 ^ 13
      else if m ≠ 0 then
        s * 2 ^ 31 + (Nat.log2 m + 103) * 2 ^ 23 + (m - 2 ^ Nat.log2 m) * 2 ^ (23 - Nat.log2 m)
      else s * 2 ^ 31 := by
  simp only [half2single]
  rw [show (s * 2 ^ 15 + e * 2 ^ 10 + m) / 2 ^ 15 % 2 = s from by omega,
      show (s * 2 ^ 15 + e * 2 ^ 10 + m) / 2 ^ 10 % 32 = e from by omega,
      show (s * 2 ^ 15 + e * 2 ^ 10 + m) % 2 ^ 10 = m from by omega]

lemma single2half_eval_sub (s E M : Nat) (hs : s < 2) (hE1 : 1 ≤ E) (hE2 : E ≤ 112)
    (hM : M < 2 ^ 23) :
    single2half (s * 2 ^ 31 + E * 2 ^ 23 + M) = s * 2 ^ 15 + rne (2 ^ 23 + M) (126 - E) := by
  simp only [single2half]
  rw [show (s * 2 ^ 31 + E * 2 ^ 23 + M) / 2 ^ 31 % 2 = s from by omega,
      show (s * 2 ^ 31 + E * 2 ^ 23 + M) / 2 ^ 23 % 256 = E from by omega,
      show (s * 2 ^ 31 + E * 2 ^ 23 + M) % 2 ^ 23 = M from by omega,
      if_neg (by omega), if_neg (by omega), if_neg (by omega), if_neg (by omega)]

set_option maxHeartbeats 4000000 in
lemma half_roundtrip_comp (s e m : Nat) (hs : s < 2) (he : e < 32) (hm : m < 1024)
    (hnan : e = 31 → m = 0) :
    single2half (half2single (s * 2 ^ 15 + e * 2 ^ 10 + m)) = s * 2 ^ 15 + e * 2 ^ 10 + m := by
  rw [half2single_eval s e m hs he hm]
  rcases eq_or_ne e 31 with he31 | he31
  · have hm0 := hnan he31
    subst he31; subst hm0
    rw [if_pos rfl]
    simp only [single2half, rne]
    split_ifs <;> omega
  · rcases eq_or_ne e 0 with he0 | he0
    · subst he0
      rcases eq_or_ne m 0 with hm0 | hm0
      · subst hm0
        rw [if_neg (by omega), if_neg (by omega), if_neg (by omega)]
        simp only [single2half, rne]
        split_ifs <;> omega
      · rw [if_neg (by omega), if_neg (by omega), if_pos hm0]
        have h1 : 2 ^ Nat.log2 m ≤ m := (Nat.le_log2 hm0).mp le_rfl
        have h2 : m < 2 ^ (Nat.log2 m + 1) := (Nat.log2_lt hm0).mp (Nat.lt_succ_self _)
        have h9 : Nat.log2 m ≤ 9 := by
          have := (Nat.log2_lt hm0).mpr (show m < 2 ^ 10 by omega)
          omega
        generalize hk : Nat.log2 m = k at h1 h2 h9 ⊢
        interval_cases k <;>
          (rw [single2half_eval_sub] <;> first
            | (simp only [rne]; norm_num; omega)
            | omega)
    · rw [if_neg he31, if_pos he0]
      simp only [single2half, rne]
      split_ifs <;> omega

/-! ## Claim theorems -/

/-- Claim C1: a stop packet (type 0) with a payload of any length, and a packet
with an unregistered (type 2) or out-of-range (type ≥ 4, e.g. 99) type with any
payload, both decode to the all-neutral zero setpoint as a normal, silent
outcome (`some`, never the fatal `none`), leaving the diagnostics untouched. -/
theorem stop_and_unknown_types_yield_neutral (st : DebugState) (t : Nat) (payload : List Nat)
    (h : t = 0 ∨ t = 2 ∨ 4 ≤ t) :
    crtpCommanderGenericDecodeSetpoint st (t :: payload) = some (neutralSetpoint, st) := by
  rcases h with h | h | h
  · subst h; rfl
  · subst h; rfl
  · show decodeDispatch st t payload = _
    unfold decodeDispatch nTypes
    rw [if_neg (by omega)]

/-- Witness for C1: type 99 with a 3-byte payload decodes silently to the
neutral setpoint. -/
theorem stop_and_unknown_types_yield_neutral_witness :
    crtpCommanderGenericDecodeSetpoint ⟨0, 0, 0, 0⟩ (99 :: [1, 2, 3]) =
      some (neutralSetpoint, ⟨0, 0, 0, 0⟩) :=
  stop_and_unknown_types_yield_neutral ⟨0, 0, 0, 0⟩ 99 [1, 2, 3] (by decide)

/-- Claim C2 (amended): for the registered fixed-length types, any payload
whose length differs from the required one — 16 bytes for type 1
(`sizeof(struct velocityPacket_s)`), 24 bytes for type 3
(`sizeof(fullControlPacket_t)`) — takes the fatal assertion path (`none`):
no partial or best-effort decode, no setpoint is produced at all. -/
theorem length_mismatch_is_fatal (st : DebugState) (payload : List Nat) :
    (payload.length ≠ 16 → crtpCommanderGenericDecodeSetpoint st (1 :: payload) = none) ∧
    (payload.length ≠ 24 → crtpCommanderGenericDecodeSetpoint st (3 :: payload) = none) := by
  constructor <;> intro h
  · show decodeDispatch st 1 payload = none
    simp only [decodeDispatch, nTypes, packetDecoders, velocityDecoder]
    rw [if_pos (by omega), if_neg h]
  · show decodeDispatch st 3 payload = none
    simp only [decodeDispatch, nTypes, packetDecoders, fullControlDecoder]
    rw [if_pos (by omega), if_neg h]

/-- Witness for C2: a 15-byte payload for type 1 and a 17-byte payload for
type 3 both hit the fatal path. -/
theorem length_mismatch_is_fatal_witness :
    crtpCommanderGenericDecodeSetpoint ⟨0, 0, 0, 0⟩ (1 :: List.replicate 15 0) = none ∧
    crtpCommanderGenericDecodeSetpoint ⟨0, 0, 0, 0⟩ (3 :: List.replicate 17 0) = none :=
  ⟨(length_mismatch_is_fatal ⟨0, 0, 0, 0⟩ (List.replicate 15 0)).1 (by decide),
   (length_mismatch_is_fatal ⟨0, 0, 0, 0⟩ (List.replicate 17 0)).2 (by decide)⟩

/-- Counterexample to C2 as stated: the claim says a type-3 payload whose
length differs from 18 bytes triggers the fatal assertion, but a 24-byte
all-zero payload (length ≠ 18) decodes without any assertion:
`sizeof(fullControlPacket_t)` is 24, not 18. -/
theorem length_mismatch_claim_cex :
    (List.replicate 24 (0 : Nat)).length ≠ 18 ∧
    crtpCommanderGenericDecodeSetpoint ⟨0, 0, 0, 0⟩ (3 :: List.replicate 24 0) ≠ none := by
  constructor
  · decide
  · decide

/-- Claim C5: in the packed 2-byte `fullControlPacketHeader_t`, bit 0 is
`packetHasExternalReference`, bit 1 `setEmergency`, bit 2 `resetEmergency`,
bits 3-5 `controlModeX`, bits 6-8 `controlModeY`, bits 9-11 `controlModeZ`,
bits 12-15 padding: every 3-bit value 0-7 placed in a control-mode slot is
recovered exactly, and the two emergency bits are extracted independently of
every other bit of the header. -/
theorem header_bit_positions (h ext sE rE mX mY mZ pad : Nat)
    (hdecomp : h = ext + 2 * sE + 4 * rE + 8 * mX + 64 * mY + 512 * mZ + 4096 * pad)
    (h1 : ext < 2) (h2 : sE < 2) (h3 : rE < 2)
    (h4 : mX < 8) (h5 : mY < 8) (h6 : mZ < 8) (h7 : pad < 16) :
    headerControlModeX h = mX ∧ headerControlModeY h = mY ∧ headerControlModeZ h = mZ ∧
    headerSetEmergency h = sE ∧ headerResetEmergency h = rE := by
  subst hdecomp
  simp only [headerControlModeX, headerControlModeY, headerControlModeZ,
    headerSetEmergency, headerResetEmergency]
  omega

/-- Witness for C5: a fully mixed header (all fields nonzero, padding 9)
recovers every field. -/
theorem header_bit_positions_witness :
    headerControlModeX 40683 = 5 ∧ headerControlModeY 40683 = 3 ∧
    headerControlModeZ 40683 = 7 ∧ headerSetEmergency 40683 = 1 ∧
    headerResetEmergency 40683 = 0 :=
  header_bit_positions 40683 1 1 0 5 3 7 9 (by decide) (by decide) (by decide)
    (by decide) (by decide) (by decide) (by decide) (by decide)

/-- Claim C8: the dispatcher asserts `pk->size > 0`: the empty packet is the
fatal path (`none`), not a recovered case; and for every nonempty packet the
assertion branch is unreachable — decoding proceeds to the dispatch step on
the type byte and the remaining payload. -/
theorem empty_packet_asserted (st : DebugState) (pk : List Nat) :
    (pk = [] → crtpCommanderGenericDecodeSetpoint st pk = none) ∧
    (pk ≠ [] →
      crtpCommanderGenericDecodeSetpoint st pk = decodeDispatch st (pk.headD 0) pk.tail) := by
  constructor
  · rintro rfl
    rfl
  · intro h
    match pk with
    | [] => exact absurd rfl h
    | t :: p => rfl

/-- Witness for C8: the empty packet is fatal; the one-byte stop packet passes
the assertion and reaches the dispatch step. -/
theorem empty_packet_asserted_witness :
    crtpCommanderGenericDecodeSetpoint ⟨0, 0, 0, 0⟩ [] = none ∧
    crtpCommanderGenericDecodeSetpoint ⟨0, 0, 0, 0⟩ [0] = decodeDispatch ⟨0, 0, 0, 0⟩ 0 [] :=
  ⟨(empty_packet_asserted ⟨0, 0, 0, 0⟩ []).1 rfl,
   (empty_packet_asserted ⟨0, 0, 0, 0⟩ [0]).2 (by decide)⟩

/-- Claim C3: a type-1 (velocityWorld) packet with a 16-byte payload of four
little-endian 32-bit floats `vx, vy, vz, yawrate` decodes to the setpoint with
axis mode `modeVelocity` for x, y, z and yaw, `vx, vy, vz` in the term-1 slots
`x[1], y[1], z[1]`, `attitudeRate.yaw = yawrate`, and the legacy 3-bit mirrors
`xmode = ymode = zmode = 0b010`; the diagnostics are untouched. -/
theorem velocity_packet_decode (st : DebugState)
    (b0 b1 b2 b3 b4 b5 b6 b7 b8 b9 b10 b11 b12 b13 b14 b15 : Nat) :
    crtpCommanderGenericDecodeSetpoint st
        (1 :: [b0, b1, b2, b3, b4, b5, b6, b7, b8, b9, b10, b11, b12, b13, b14, b15]) =
      some ({ neutralSetpoint with
              mode := { neutralSetpoint.mode with
                        x := modeVelocity, y := modeVelocity
                        z := modeVelocity, yaw := modeVelocity }
              velocity := ⟨b0 + 2 ^ 8 * b1 + 2 ^ 16 * b2 + 2 ^ 24 * b3,
                           b4 + 2 ^ 8 * b5 + 2 ^ 16 * b6 + 2 ^ 24 * b7,
                           b8 + 2 ^ 8 * b9 + 2 ^ 16 * b10 + 2 ^ 24 * b11⟩
              xmode := 2, ymode := 2, zmode := 2
              x1 := b0 + 2 ^ 8 * b1 + 2 ^ 16 * b2 + 2 ^ 24 * b3
              y1 := b4 + 2 ^ 8 * b5 + 2 ^ 16 * b6 + 2 ^ 24 * b7
              z1 := b8 + 2 ^ 8 * b9 + 2 ^ 16 * b10 + 2 ^ 24 * b11
              attitudeRate :=
                ⟨0, 0, b12 + 2 ^ 8 * b13 + 2 ^ 16 * b14 + 2 ^ 24 * b15⟩ }, st) :=
  rfl

/-- Claim C4 (amended): a type-3 (fullControl) packet with a 24-byte payload
(2-byte bit-packed header + 11 half-floats: 3 for X, 3 for Y, 3 for Z, 2 for
yaw) decodes with the legacy axis-mode fields taken directly from the 3-bit
`controlModeX/Y/Z` header codes (no enum translation), the emergency flags
from the header bits, and each half-precision body value independently widened
into the term slots `x[0..2], y[0..2], z[0..2], yaw[0..1]` in order. -/
theorem full_control_packet_decode (st : DebugState)
    (b0 b1 b2 b3 b4 b5 b6 b7 b8 b9 b10 b11 b12 b13 b14 b15 b16 b17 b18 b19 b20 b21 b22
     b23 : Nat) :
    (crtpCommanderGenericDecodeSetpoint st
        (3 :: [b0, b1, b2, b3, b4, b5, b6, b7, b8, b9, b10, b11, b12, b13, b14, b15,
               b16, b17, b18, b19, b20, b21, b22, b23])).map Prod.fst =
      some { neutralSetpoint with
             xmode := headerControlModeX (b0 + 2 ^ 8 * b1)
             ymode := headerControlModeY (b0 + 2 ^ 8 * b1)
             zmode := headerControlModeZ (b0 + 2 ^ 8 * b1)
             setEmergency := headerSetEmergency (b0 + 2 ^ 8 * b1)
             resetEmergency := headerResetEmergency (b0 + 2 ^ 8 * b1)
             x0 := half2single (b2 + 2 ^ 8 * b3)
             x1 := half2single (b4 + 2 ^ 8 * b5)
             x2 := half2single (b6 + 2 ^ 8 * b7)
             y0 := half2single (b8 + 2 ^ 8 * b9)
             y1 := half2single (b10 + 2 ^ 8 * b11)
             y2 := half2single (b12 + 2 ^ 8 * b13)
             z0 := half2single (b14 + 2 ^ 8 * b15)
             z1 := half2single (b16 + 2 ^ 8 * b17)
             z2 := half2single (b18 + 2 ^ 8 * b19)
             yaw0 := half2single (b20 + 2 ^ 8 * b21)
             yaw1 := half2single (b22 + 2 ^ 8 * b23) } :=
  rfl

/-- Counterexample to C4 as stated: the claim describes a successful decode of
an 18-byte type-3 payload, but an 18-byte payload hits the fatal length
assertion (`sizeof(fullControlPacket_t)` is 24 bytes, 11 half-floats, not 18
bytes / 8 half-floats). -/
theorem full_control_18_bytes_cex :
    crtpCommanderGenericDecodeSetpoint ⟨0, 0, 0, 0⟩ (3 :: List.replicate 18 0) = none := by
  decide

/-- Claim C6: the half-precision codec is a deterministic pure function
following the IEEE-754 binary16 → binary32 widening rule, and every value
exactly representable in binary16 (every non-NaN 16-bit pattern, including
subnormals, signed zeros and the infinities) round-trips exactly through
encode-then-decode. -/
theorem half_codec_roundtrip (h : Nat) (hh : h < 2 ^ 16)
    (hnan : h / 2 ^ 10 % 32 = 31 → h % 2 ^ 10 = 0) :
    single2half (half2single h) = h ∧
    half2single (single2half (half2single h)) = half2single h := by
  have key : single2half (half2single h) = h := by
    have base := half_roundtrip_comp (h / 2 ^ 15 % 2) (h / 2 ^ 10 % 32) (h % 2 ^ 10)
      (by omega) (by omega) (by omega) hnan
    rwa [show h / 2 ^ 15 % 2 * 2 ^ 15 + h / 2 ^ 10 % 32 * 2 ^ 10 + h % 2 ^ 10 = h from
      by omega] at base
  exact ⟨key, by rw [key]⟩

/-- Witness for C6: `1.0` (pattern `0x3C00`) round-trips; its widened pattern
is `0x3F800000`. -/
theorem half_codec_roundtrip_witness :
    single2half (half2single 15360) = 15360 ∧
    half2single (single2half (half2single 15360)) = half2single 15360 :=
  half_codec_roundtrip 15360 (by decide) (by decide)

/-- Claim C7: every successful decode of a type-3 (fullControl) packet bumps
the exported `debugCount` (`packetsReceived`) by exactly one and records the
just-decoded first terms `x[0], y[0], z[0]` in `testValueX/Y/Z`; the decode
result never depends on the previous diagnostic values. -/
theorem full_control_diagnostics (st : DebugState)
    (b0 b1 b2 b3 b4 b5 b6 b7 b8 b9 b10 b11 b12 b13 b14 b15 b16 b17 b18 b19 b20 b21 b22
     b23 : Nat) :
    (crtpCommanderGenericDecodeSetpoint st
        (3 :: [b0, b1, b2, b3, b4, b5, b6, b7, b8, b9, b10, b11, b12, b13, b14, b15,
               b16, b17, b18, b19, b20, b21, b22, b23])).map Prod.snd =
      some { debugCount := st.debugCount + 1
             testValueX := half2single (b2 + 2 ^ 8 * b3)
             testValueY := half2single (b8 + 2 ^ 8 * b9)
             testValueZ := half2single (b14 + 2 ^ 8 * b15) } ∧
    (crtpCommanderGenericDecodeSetpoint st
        (3 :: [b0, b1, b2, b3, b4, b5, b6, b7, b8, b9, b10, b11, b12, b13, b14, b15,
               b16, b17, b18, b19, b20, b21, b22, b23])).map
        (fun r => (r.1.x0, r.1.y0, r.1.z0)) =
      some (half2single (b2 + 2 ^ 8 * b3), half2single (b8 + 2 ^ 8 * b9),
            half2single (b14 + 2 ^ 8 * b15)) :=
  ⟨rfl, rfl⟩

/-- Claim C9: a type-3 (fullControl) packet of the correct length leaves the
enumerated mode fields `mode.x/y/z/yaw` at their zeroed neutral value (only
the legacy 3-bit mirrors are written) and leaves the `velocity` and
`attitudeRate` fields at zero. -/
theorem full_control_leaves_enum_modes_neutral (st : DebugState)
    (b0 b1 b2 b3 b4 b5 b6 b7 b8 b9 b10 b11 b12 b13 b14 b15 b16 b17 b18 b19 b20 b21 b22
     b23 : Nat) :
    (crtpCommanderGenericDecodeSetpoint st
        (3 :: [b0, b1, b2, b3, b4, b5, b6, b7, b8, b9, b10, b11, b12, b13, b14, b15,
               b16, b17, b18, b19, b20, b21, b22, b23])).map
        (fun r => (r.1.mode, r.1.velocity, r.1.attitudeRate)) =
      some (⟨modeDisable, modeDisable, modeDisable, modeDisable, modeDisable, modeDisable⟩,
            ⟨0, 0, 0⟩, ⟨0, 0, 0⟩) :=
  rfl

/-- Claim C10: a type-1 (velocityWorld) packet with a 16-byte payload also
writes the decoded `vx, vy, vz` into the dedicated `velocity.x/y/z` fields, so
after decoding they coincide with the generic term-1 slots `x[1], y[1], z[1]`. -/
theorem velocity_packet_velocity_fields (st : DebugState)
    (b0 b1 b2 b3 b4 b5 b6 b7 b8 b9 b10 b11 b12 b13 b14 b15 : Nat) :
    (crtpCommanderGenericDecodeSetpoint st
        (1 :: [b0, b1, b2, b3, b4, b5, b6, b7, b8, b9, b10, b11, b12, b13, b14, b15])).map
        (fun r => r.1.velocity) =
      some ⟨b0 + 2 ^ 8 * b1 + 2 ^ 16 * b2 + 2 ^ 24 * b3,
            b4 + 2 ^ 8 * b5 + 2 ^ 16 * b6 + 2 ^ 24 * b7,
            b8 + 2 ^ 8 * b9 + 2 ^ 16 * b10 + 2 ^ 24 * b11⟩ ∧
    (crtpCommanderGenericDecodeSetpoint st
        (1 :: [b0, b1, b2, b3, b4, b5, b6, b7, b8, b9, b10, b11, b12, b13, b14, b15])).map
        (fun r => (r.1.velocity.x, r.1.velocity.y, r.1.velocity.z)) =
    (crtpCommanderGenericDecodeSetpoint st
        (1 :: [b0, b1, b2, b3, b4, b5, b6, b7, b8, b9, b10, b11, b12, b13, b14, b15])).map
        (fun r => (r.1.x1, r.1.y1, r.1.z1)) :=
  ⟨rfl, rfl⟩

end CrtpCommanderGeneric
